import Mathlib

/-!
# Verification of the AKS multi-tenant kubectl routing core

Shallow embedding of `holmes/plugins/toolsets/aks_base.py` and
`holmes/plugins/toolsets/aks_kubectl.py`:

* `parse_resource_id` embeds `BaseAKSTool._parse_resource_id` (the anchored
  case-insensitive regex `^/subscriptions/([^/]+)/resourceGroups/([^/]+)
  /providers/([^/]+)/([^/]+)/([^/]+)$` applied to the stripped input; an
  anchored match of that pattern is exactly a split of the string on `/`
  into nine pieces with the three literal segments compared
  case-insensitively and the five capture groups non-empty).
* `get_resource_context` embeds `BaseAKSTool._get_resource_context`; the
  Python `ValueError` is the `Except.error` branch.
* `execute_kubectl_via_azure_sdk` / `execute_kubectl_locally` embed the two
  executors; the outcome of the external world (Azure SDK / subprocess) is
  an explicit parameter (`SdkOutcome` / `LocalOutcome`) and the Python
  `ImportError` is the `Except.error` branch of the remote executor.
* `invoke_result` / `invoke` embed `CallKubectl._invoke`; `json.loads` is an
  abstract parameter `loads`, and the warning emitted by the mutating-verb
  policy gate is returned alongside the result by `invoke`.

Python-truthiness of strings (`if not s`), `str.strip()`, `str.split()` and
`str.lower()` are embedded explicitly (`pyStrip`, `pySplitWs`, ASCII
`Char.toLower`, matching the ASCII data these functions receive here).
-/

namespace AKS

/-- The whitespace characters stripped by Python `str.strip()` (ASCII part). -/
def isPySpace (c : Char) : Bool :=
  c = ' ' || c = '\t' || c = '\n' || c = '\r' || c = '\x0b' || c = '\x0c'

/-- Python `str.strip()` on the character list. -/
def pyStrip (l : List Char) : List Char :=
  ((l.dropWhile isPySpace).reverse.dropWhile isPySpace).reverse

/-- Python `str.strip()` on strings. -/
def py_strip (s : String) : String := (pyStrip s.data).asString

/-- Split a character list on `/` (every occurrence; pieces may be empty). -/
def splitSlash : List Char → List (List Char)
  | [] => [[]]
  | c :: cs =>
    if c = '/' then [] :: splitSlash cs
    else
      match splitSlash cs with
      | [] => [[c]]
      | g :: gs => (c :: g) :: gs

/-- Case-insensitive equality of character lists (ASCII lowering, embedding
`re.IGNORECASE` on the ASCII literals of the pattern). -/
def ciEq (a b : List Char) : Bool :=
  a.map Char.toLower = b.map Char.toLower

/-- Anchored match of the resource-id regex against a (pre-stripped) string:
the string splits on `/` into `["", subscriptions, S, resourceGroups, G,
providers, P, T, N]` with the literals matched case-insensitively and the
five groups non-empty (a `[^/]+` group is exactly a non-empty piece of the
split). Returns the three retained groups. -/
def matchResourceId (s : List Char) : Option (List Char × List Char × List Char) :=
  match splitSlash s with
  | [e, subsLit, sub, rgLit, rg, provLit, prov, rtype, name] =>
    if e = [] && ciEq subsLit "subscriptions".data && decide (sub ≠ []) &&
        ciEq rgLit "resourceGroups".data && decide (rg ≠ []) &&
        ciEq provLit "providers".data && decide (prov ≠ []) &&
        decide (rtype ≠ []) && decide (name ≠ []) then
      some (sub, rg, name)
    else none
  | _ => none

/-- Embeds `BaseAKSTool._parse_resource_id`: empty input returns `none`
(Python truthiness guard), otherwise the input is stripped and matched
against `RESOURCE_ID_PATTERN`. -/
def parse_resource_id (resource_id : String) : Option (String × String × String) :=
  if resource_id = "" then none
  else
    match matchResourceId (pyStrip resource_id.data) with
    | some (sub, rg, name) => some (sub.asString, rg.asString, name.asString)
    | none => none

/-- Follows the claim's words (C1): the whole input, matched start-to-end and
case-insensitively, must have the five-segment form
`/subscriptions/S/resourceGroups/G/providers/P/T/N` with each segment a
non-empty run of non-slash characters; no stripping of the input. -/
def specFiveSegmentForm (s : String) : Option (String × String × String) :=
  match matchResourceId s.data with
  | some (sub, rg, name) => some (sub.asString, rg.asString, name.asString)
  | none => none

/-- Python `str.lower()` (ASCII lowering, matching the ASCII data handled here). -/
def py_lower (s : String) : String := (s.data.map Char.toLower).asString

/-- A JSON-style dict with string values, as an association list; `get` is
Python `dict.get` (first binding wins). -/
abbrev Dict : Type := List (String × String)

/-- Python `dict.get(k)`: `some v` when the key is bound, else `none`. -/
def Dict.get (d : Dict) (k : String) : Option String :=
  (List.find? (fun p => p.1 == k) d).map (fun p => p.2)

/-- Python truthiness of an optional string: `not x` holds for a missing key
and for the empty string. -/
def pyFalsy : Option String → Bool
  | none => true
  | some s => s = ""

/-- Embeds `AzureResourceContext.__init__`: the validated per-request
security context. -/
structure AzureResourceContext where
  cloud : String
  resource_id : String
  access_token : String
  subscription_id : String
  resource_group : String
  resource_name : String
  tenant_id : Option String
deriving DecidableEq

/-- How the Python f-string renders the optional tenant id (`None` or the
string itself). -/
def reprOptStr : Option String → String
  | none => "None"
  | some t => t

/-- Embeds `AzureResourceContext.__repr__`: sanitized representation, the
token replaced by the fixed marker. -/
def AzureResourceContext.reprStr (c : AzureResourceContext) : String :=
  "AzureResourceContext(cloud=" ++ c.cloud ++
  ", subscription_id=" ++ c.subscription_id ++
  ", resource_group=" ++ c.resource_group ++
  ", resource_name=" ++ c.resource_name ++
  ", tenant_id=" ++ reprOptStr c.tenant_id ++
  ", access_token=***REDACTED***)"

/-- `ValueError` message for a missing `resource_id`. -/
def missingResourceIdMsg : String :=
  "Azure multi-tenant request missing 'resource_id' field. Request context must include: cloud='azure', resource_id, access_token"

/-- `ValueError` message for a missing `access_token`. -/
def missingAccessTokenMsg : String :=
  "Azure multi-tenant request missing 'access_token' field. Request context must include: cloud='azure', resource_id, access_token"

/-- `ValueError` message for an unparseable `resource_id` (the doubled braces
of the Python f-string render as single braces). -/
def parseFailMsg (resource_id : String) : String :=
  "Failed to parse Azure resource_id: " ++ resource_id ++
  ". Expected format: /subscriptions/\x7bsub\x7d/resourceGroups/\x7brg\x7d/providers/\x7bprovider\x7d/\x7bresourceType\x7d/\x7bname\x7d"

/-- Embeds `BaseAKSTool._get_resource_context`. The `request_context` is
`none` when absent; Python also treats an empty dict as absent. A raised
`ValueError` is the `.error` branch. -/
def get_resource_context (request_context : Option Dict) :
    Except String (Option AzureResourceContext) :=
  match request_context with
  | none => .ok none
  | some rc =>
    if rc.isEmpty then .ok none
    else
      let cloud := py_lower ((rc.get "cloud").getD "")
      if cloud ≠ "azure" then .ok none
      else
        let resource_id := rc.get "resource_id"
        let access_token := rc.get "access_token"
        if pyFalsy resource_id then .error missingResourceIdMsg
        else if pyFalsy access_token then .error missingAccessTokenMsg
        else
          let rid := resource_id.getD ""
          match parse_resource_id rid with
          | none => .error (parseFailMsg rid)
          | some (sub, rg, name) =>
            .ok (some ⟨cloud, rid, access_token.getD "", sub, rg, name, rc.get "tenant_id"⟩)

/-- `exit_code` / `stdout` / `stderr` dict returned by both executors. -/
structure CommandResult where
  exit_code : Int
  stdout : String
  stderr : String
deriving DecidableEq

/-- Outcome of the `subprocess.run` call in `_execute_kubectl_locally`:
completed (with exit code and captured streams), `TimeoutExpired`, or any
other exception (with its message). -/
inductive LocalOutcome
  | completed (exit_code : Int) (stdout stderr : String)
  | timedOut
  | execError (msg : String)
deriving DecidableEq

/-- Embeds `BaseAKSTool._execute_kubectl_locally` as a function of the
subprocess outcome. -/
def execute_kubectl_locally (kubectl_args : String) : LocalOutcome → CommandResult
  | .completed ec out err => ⟨ec, out, err⟩
  | .timedOut => ⟨-1, "", "Command timed out after 60 seconds: kubectl " ++ kubectl_args⟩
  | .execError msg => ⟨-1, "", "Failed to execute kubectl command: " ++ msg⟩

/-- Outcome of the Azure SDK interaction in `_execute_kubectl_via_azure_sdk`:
the import fails; or the RunCommand long-running operation yields a result
object (whose `exit_code` / `logs` attributes may be absent, modelled as
`none`); or anything in the second `try` block raises (client construction,
API error, poller timeout, non-success outcome). -/
inductive SdkOutcome
  | importError
  | opCompleted (exit_code : Option Int) (logs : Option String)
  | opFailed (msg : String)
deriving DecidableEq

/-- `ImportError` message raised when `azure-mgmt-containerservice` is absent. -/
def azureSdkMissingMsg : String :=
  "azure-mgmt-containerservice package is required for Azure multi-tenant execution. Install it with: pip install azure-mgmt-containerservice"

/-- Embeds `BaseAKSTool._execute_kubectl_via_azure_sdk` as a function of the
SDK outcome; the propagated `ImportError` is the `.error` branch, every
other failure is caught and mapped to exit code `-1`. -/
def execute_kubectl_via_azure_sdk (azure_ctx : AzureResourceContext)
    (kubectl_args : String) : SdkOutcome → Except String CommandResult
  | .importError => .error azureSdkMissingMsg
  | .opCompleted ec logs => .ok ⟨ec.getD 0, logs.getD "", ""⟩
  | .opFailed msg => .ok ⟨-1, "", "Azure SDK RunCommand failed: " ++ msg⟩

/-- Result of `CallKubectl._parse_kubectl_output`: either the structure
parsed by `json.loads`, or the `\x7b"output": text\x7d` single-field record
wrapping the raw text. -/
inductive KubectlOutput (α : Type)
  | parsed (value : α)
  | raw (output : String)
deriving DecidableEq

/-- `stdout.strip().startswith("\x7b") or stdout.strip().startswith("[")`:
starting with a one-character string is having it as first character. -/
def startsWithJson (stdout : String) : Bool :=
  (pyStrip stdout.data).head? = some '\x7b' || (pyStrip stdout.data).head? = some '['

/-- Embeds `CallKubectl._parse_kubectl_output`; `json.loads` is the abstract
parameter `loads` (an external library function), `none` standing for
`JSONDecodeError`. Total: no branch raises. -/
def parse_kubectl_output (loads : String → Option α) (stdout : String) :
    KubectlOutput α :=
  if stdout = "" || py_strip stdout = "" then .raw ""
  else if startsWithJson stdout then
    match loads stdout with
    | some v => .parsed v
    | none => .raw stdout
  else .raw stdout

/-- `StructuredToolResultStatus` (the two values this module uses). -/
inductive ResultStatus
  | success
  | error
deriving DecidableEq

/-- Embeds `StructuredToolResult` as constructed by `CallKubectl._invoke`. -/
structure StructuredToolResult (α : Type) where
  status : ResultStatus
  data : Option (KubectlOutput α)
  error : Option String
  params : Dict
  return_code : Option Int
deriving DecidableEq

/-- Error message for a missing `args` parameter. -/
def missingArgsMsg : String :=
  "Missing required parameter 'args'. Please provide kubectl command arguments."

/-- The result-assembly tail of `CallKubectl._invoke` (lines 168-188): turn
the executor's `CommandResult` into the final `StructuredToolResult`. -/
def assemble_result (params : Dict) (loads : String → Option α)
    (result : CommandResult) : StructuredToolResult α :=
  if result.exit_code ≠ 0 then
    ⟨.error, none,
      some ("kubectl command failed (exit code " ++ toString result.exit_code ++ "): "
        ++ result.stderr),
      params, some result.exit_code⟩
  else
    ⟨.success, some (parse_kubectl_output loads result.stdout), none,
      params, some result.exit_code⟩

/-- Split a character list at every whitespace character (pieces may be
empty). -/
def splitWsChars : List Char → List (List Char)
  | [] => [[]]
  | c :: cs =>
    if isPySpace c then [] :: splitWsChars cs
    else
      match splitWsChars cs with
      | [] => [[c]]
      | g :: gs => (c :: g) :: gs

/-- Python `str.split()`: split on whitespace and drop the empty pieces
(equivalently, split on whitespace runs). -/
def pySplitWs (s : String) : List String :=
  ((splitWsChars s.data).map List.asString).filter (fun p => p ≠ "")

/-- The fixed set of mutating verbs inspected by the policy gate. -/
def dangerous_commands : List String :=
  ["delete", "apply", "create", "patch", "replace", "edit"]

/-- `first_word` as computed by `CallKubectl._invoke` line 117. -/
def first_word (kubectl_args : String) : String :=
  if kubectl_args ≠ "" then py_lower ((pySplitWs kubectl_args).headD "") else ""

/-- Embeds `CallKubectl._invoke`: strip the `args` parameter, reject a blank
one, extract the Azure context (a `ValueError` propagates uncaught — the
extraction happens before the `try` block), route to the remote or local
executor, catch an `ImportError` as a structured error, and assemble the
result. The mutating-verb gate only logs, so it does not appear here; its
warning is returned by `invoke` below. -/
def invoke_result (params : Dict) (request_context : Option Dict)
    (sdkOut : SdkOutcome) (localOut : LocalOutcome) (loads : String → Option α) :
    Except String (StructuredToolResult α) :=
  let kubectl_args := py_strip ((params.get "args").getD "")
  if kubectl_args = "" then
    .ok ⟨.error, none, some missingArgsMsg, params, none⟩
  else
    match get_resource_context request_context with
    | .error e => .error e
    | .ok (some azure_ctx) =>
      match execute_kubectl_via_azure_sdk azure_ctx kubectl_args sdkOut with
      | .error e => .ok ⟨.error, none, some e, params, none⟩
      | .ok r => .ok (assemble_result params loads r)
    | .ok none =>
      .ok (assemble_result params loads (execute_kubectl_locally kubectl_args localOut))

/-- The warning emitted by the mutating-verb policy gate of
`CallKubectl._invoke` (lines 114-124); the gate runs only after the blank-
`args` early return and has no effect beyond this log line. -/
def gate_warnings (params : Dict) : List String :=
  let kubectl_args := py_strip ((params.get "args").getD "")
  if kubectl_args ≠ "" ∧ first_word kubectl_args ∈ dangerous_commands then
    ["Attempted to execute potentially dangerous kubectl command: "
      ++ first_word kubectl_args]
  else []

/-- `CallKubectl._invoke` with its observable log side channel: the returned
value (or propagated `ValueError`) together with the policy-gate warning. -/
def invoke (params : Dict) (request_context : Option Dict)
    (sdkOut : SdkOutcome) (localOut : LocalOutcome) (loads : String → Option α) :
    Except String (StructuredToolResult α) × List String :=
  (invoke_result params request_context sdkOut localOut loads, gate_warnings params)

/-- `sub` occurs as a substring of `s`. -/
def strContains (s sub : String) : Prop :=
  ∃ pre post : String, s = pre ++ (sub ++ post)

instance {ε α : Type} [DecidableEq ε] [DecidableEq α] : DecidableEq (Except ε α) :=
  fun x y =>
    match x, y with
    | .error a, .error b =>
      if h : a = b then isTrue (congrArg Except.error h)
      else isFalse (fun hh => h (Except.error.inj hh))
    | .ok a, .ok b =>
      if h : a = b then isTrue (congrArg Except.ok h)
      else isFalse (fun hh => h (Except.ok.inj hh))
    | .error _, .ok _ => isFalse (fun hh => Except.noConfusion hh)
    | .ok _, .error _ => isFalse (fun hh => Except.noConfusion hh)

end AKS

namespace AKS

/-- C1 (counterexample): the claim's biconditional fails on a whitespace-
padded identifier — `_parse_resource_id` strips the input before matching,
so it returns the triple although the whole string, matched start-to-end,
does not have the five-segment form (it starts with a space). -/
theorem c1_strip_counterexample :
    parse_resource_id " /subscriptions/s/resourceGroups/g/providers/p/t/n"
        = some ("s", "g", "n")
      ∧ specFiveSegmentForm " /subscriptions/s/resourceGroups/g/providers/p/t/n"
        = none := by
  decide

/-- C1 (amended): `_parse_resource_id` returns the triple (S, G, N) exactly
when the input is non-empty and its whitespace-stripped form, matched
start-to-end and case-insensitively, has the five-segment form
`/subscriptions/S/resourceGroups/G/providers/P/T/N` with non-empty non-slash
segments; every other string — including the four listed rejects — yields
`none`, not an error. -/
theorem c1_parse_resource_id_spec :
    (∀ s : String,
        parse_resource_id s = if s = "" then none else specFiveSegmentForm (py_strip s))
      ∧ parse_resource_id "" = none
      ∧ parse_resource_id "/invalid/resource/id" = none
      ∧ parse_resource_id "/subscriptions/sub-123" = none
      ∧ parse_resource_id "not-a-resource-id" = none
      ∧ parse_resource_id
          "/SUBSCRIPTIONS/sub-123/ResourceGroups/rg-test/PROVIDERS/Microsoft.ContainerService/managedClusters/cluster-test"
          = some ("sub-123", "rg-test", "cluster-test") := by
  refine ⟨?_, by decide, by decide, by decide, by decide, by decide⟩
  intro s
  by_cases h : s = ""
  · simp [parse_resource_id, h]
  · simp [parse_resource_id, specFiveSegmentForm, py_strip, h, List.asString]

end AKS

namespace AKS

/-- C2 (counterexample): the claim compares the `cloud` value literally, but
`_get_resource_context` lowercases it first — for the context
`{cloud: "AZURE"}` the value differs from the literal `"azure"`, yet the
extractor takes the Azure path and raises a `ValueError` (missing
`resource_id`) instead of returning the "no multi-tenant context" signal. -/
theorem c2_uppercase_cloud_counterexample :
    ("AZURE" : String) ≠ "azure"
      ∧ get_resource_context (some [("cloud", "AZURE")])
          = .error missingResourceIdMsg := by
  exact ⟨by decide, rfl⟩

/-- C2 (amended): when the `RawContext` is absent or empty, or its `cloud`
value **lowercased** does not equal `"azure"`, `_get_resource_context`
returns `none` without raising, and `_invoke` (with a non-blank command)
dispatches to the local executor — the result does not depend on the Azure
SDK outcome. -/
theorem c2_no_azure_context_local {α : Type} (rc : Dict)
    (h : py_lower ((rc.get "cloud").getD "") ≠ "azure") :
    get_resource_context none = .ok none
      ∧ get_resource_context (some rc) = .ok none
      ∧ ∀ (params : Dict) (sdkOut : SdkOutcome) (localOut : LocalOutcome)
          (loads : String → Option α),
          py_strip ((params.get "args").getD "") ≠ "" →
          invoke_result params (some rc) sdkOut localOut loads
            = .ok (assemble_result params loads
                (execute_kubectl_locally (py_strip ((params.get "args").getD ""))
                  localOut)) := by
  have hc : get_resource_context (some rc) = .ok none := by
    unfold get_resource_context
    by_cases he : rc.isEmpty <;> simp [he, h]
  refine ⟨rfl, hc, ?_⟩
  intro params sdkOut localOut loads hargs
  unfold invoke_result
  simp [hargs, hc]

/-- Witness for C2: a concrete `{cloud: "aws"}` context routes a concrete
command to the local executor. -/
theorem c2_no_azure_context_local_witness :
    invoke_result [("args", " get pods ")] (some [("cloud", "aws")])
        SdkOutcome.importError (LocalOutcome.completed 0 "ok" "")
        (fun _ => (none : Option Unit))
      = .ok (assemble_result [("args", " get pods ")] (fun _ => (none : Option Unit))
          (execute_kubectl_locally
            (py_strip ((Dict.get [("args", " get pods ")] "args").getD ""))
            (LocalOutcome.completed 0 "ok" ""))) :=
  (c2_no_azure_context_local [("cloud", "aws")] (by decide)).2.2
    [("args", " get pods ")] .importError (.completed 0 "ok" "")
    (fun _ => (none : Option Unit)) (by decide)

/-- C3: when `cloud` (lowercased) is `"azure"` but `resource_id` or
`access_token` is missing/empty or `resource_id` does not parse,
`_get_resource_context` raises a `ValueError` whose message names the
missing field (or the parse failure) together with the expected schema, and
`_invoke` propagates exactly that error — for every executor outcome, so
neither executor's result is consulted. -/
theorem c3_validation_error_propagates {α : Type} (rc : Dict)
    (hcloud : py_lower ((rc.get "cloud").getD "") = "azure")
    (hbad : pyFalsy (rc.get "resource_id") = true
        ∨ pyFalsy (rc.get "access_token") = true
        ∨ parse_resource_id ((rc.get "resource_id").getD "") = none) :
    ∃ msg : String,
      get_resource_context (some rc) = .error msg
      ∧ (strContains msg "Request context must include: cloud='azure', resource_id, access_token"
          ∨ strContains msg "Failed to parse Azure resource_id")
      ∧ (pyFalsy (rc.get "resource_id") = true → msg = missingResourceIdMsg)
      ∧ (pyFalsy (rc.get "resource_id") = false →
          pyFalsy (rc.get "access_token") = true → msg = missingAccessTokenMsg)
      ∧ (pyFalsy (rc.get "resource_id") = false →
          pyFalsy (rc.get "access_token") = false →
          msg = parseFailMsg ((rc.get "resource_id").getD ""))
      ∧ ∀ (params : Dict) (sdkOut : SdkOutcome) (localOut : LocalOutcome)
          (loads : String → Option α),
          py_strip ((params.get "args").getD "") ≠ "" →
          invoke_result params (some rc) sdkOut localOut loads = .error msg := by
  have he : rc.isEmpty = false := by
    cases rc with
    | nil => exact absurd hcloud (by decide)
    | cons a l => rfl
  by_cases h1 : pyFalsy (rc.get "resource_id") = true
  · have hg : get_resource_context (some rc) = .error missingResourceIdMsg := by
      unfold get_resource_context
      simp [he, hcloud, h1]
    refine ⟨missingResourceIdMsg, hg, ?_, fun _ => rfl,
      fun hf => absurd h1 (by simp [hf]), fun hf => absurd h1 (by simp [hf]), ?_⟩
    · exact Or.inl ⟨"Azure multi-tenant request missing 'resource_id' field. ", "",
        by decide⟩
    · intro params sdkOut localOut loads hargs
      unfold invoke_result
      simp [hargs, hg]
  · by_cases h2 : pyFalsy (rc.get "access_token") = true
    · have hg : get_resource_context (some rc) = .error missingAccessTokenMsg := by
        unfold get_resource_context
        simp [he, hcloud, h1, h2]
      refine ⟨missingAccessTokenMsg, hg, ?_,
        fun hf => absurd hf h1, fun _ _ => rfl,
        fun _ hf => absurd h2 (by simp [hf]), ?_⟩
      · exact Or.inl ⟨"Azure multi-tenant request missing 'access_token' field. ", "",
          by decide⟩
      · intro params sdkOut localOut loads hargs
        unfold invoke_result
        simp [hargs, hg]
    · have h3 : parse_resource_id ((rc.get "resource_id").getD "") = none := by
        rcases hbad with hb | hb | hb
        · exact absurd hb h1
        · exact absurd hb h2
        · exact hb
      have hg : get_resource_context (some rc)
          = .error (parseFailMsg ((rc.get "resource_id").getD "")) := by
        unfold get_resource_context
        simp [he, hcloud, h1, h2, h3]
      refine ⟨parseFailMsg ((rc.get "resource_id").getD ""), hg, ?_,
        fun hf => absurd hf h1,
        fun _ hf => absurd hf h2, fun _ _ => rfl, ?_⟩
      · refine Or.inr ?_
        unfold parseFailMsg
        have hsplit : ("Failed to parse Azure resource_id: " : String)
            = "Failed to parse Azure resource_id" ++ ": " := by decide
        rw [hsplit]
        simp only [String.append_assoc]
        exact ⟨"", _, rfl⟩
      · intro params sdkOut localOut loads hargs
        unfold invoke_result
        simp [hargs, hg]

end AKS

namespace AKS

/-- Substring at an explicit split point. -/
theorem strContains_intro (pre sub post : String) :
    strContains (pre ++ (sub ++ post)) sub := ⟨pre, post, rfl⟩

/-- Substring as an explicit suffix. -/
theorem strContains_suffix (pre sub : String) : strContains (pre ++ sub) sub :=
  ⟨pre, "", by simp⟩

/-- The fully valid request context used by the spec's example-based
properties. -/
def validAzureRc : Dict :=
  [("cloud", "azure"),
   ("resource_id",
     "/subscriptions/sub-123/resourceGroups/rg-test/providers/Microsoft.ContainerService/managedClusters/cluster-test"),
   ("access_token", "token-123"),
   ("tenant_id", "tenant-123")]

/-- The security context that `validAzureRc` extracts to. -/
def validAzureCtx : AzureResourceContext :=
  ⟨"azure",
   "/subscriptions/sub-123/resourceGroups/rg-test/providers/Microsoft.ContainerService/managedClusters/cluster-test",
   "token-123", "sub-123", "rg-test", "cluster-test", some "tenant-123"⟩

/-- Witness for C3: `{cloud: "azure"}` with `resource_id` missing raises the
`ValueError` naming that field. -/
theorem c3_validation_error_propagates_witness :
    get_resource_context (some [("cloud", "azure")]) = .error missingResourceIdMsg := by
  obtain ⟨msg, hg, _, hmiss, _⟩ :=
    c3_validation_error_propagates (α := Unit) [("cloud", "azure")] (by decide)
      (Or.inl (by decide))
  rw [hmiss (by decide)] at hg
  exact hg

/-- C4: neither executor raises past its boundary for execution failures.
The local executor maps a timeout to exit code `-1` with a stderr containing
`timed out after 60 seconds`, and any other execution failure to exit code
`-1` with a diagnostic stderr; the remote executor maps every failure after
the SDK import to exit code `-1` with a diagnostic stderr; the sole
exception crossing the boundary is the `ImportError` raised when the Azure
client library is absent, which `_invoke` converts into a structured error
carrying that actionable message. -/
theorem c4_executor_boundary {α : Type} :
    (∀ args : String,
        execute_kubectl_locally args .timedOut
          = ⟨-1, "", "Command timed out after 60 seconds: kubectl " ++ args⟩
        ∧ strContains (execute_kubectl_locally args .timedOut).stderr
            "timed out after 60 seconds")
    ∧ (∀ args msg : String,
        execute_kubectl_locally args (.execError msg)
          = ⟨-1, "", "Failed to execute kubectl command: " ++ msg⟩)
    ∧ (∀ (ctx : AzureResourceContext) (args msg : String),
        execute_kubectl_via_azure_sdk ctx args (.opFailed msg)
          = .ok ⟨-1, "", "Azure SDK RunCommand failed: " ++ msg⟩)
    ∧ (∀ (ctx : AzureResourceContext) (args : String),
        execute_kubectl_via_azure_sdk ctx args .importError = .error azureSdkMissingMsg)
    ∧ (∀ (params : Dict) (request_context : Option Dict) (ctx : AzureResourceContext)
          (localOut : LocalOutcome) (loads : String → Option α),
        get_resource_context request_context = .ok (some ctx) →
        py_strip ((params.get "args").getD "") ≠ "" →
        invoke_result params request_context .importError localOut loads
          = .ok ⟨.error, none, some azureSdkMissingMsg, params, none⟩) := by
  refine ⟨?_, fun _ _ => rfl, fun _ _ _ => rfl, fun _ _ => rfl, ?_⟩
  · intro args
    refine ⟨rfl, ?_⟩
    show strContains ("Command timed out after 60 seconds: kubectl " ++ args)
      "timed out after 60 seconds"
    have hsplit : ("Command timed out after 60 seconds: kubectl " : String)
        = "Command " ++ ("timed out after 60 seconds" ++ ": kubectl ") := by decide
    rw [hsplit]
    simp only [String.append_assoc]
    exact strContains_intro _ _ _
  · intro params request_context ctx localOut loads hctx hargs
    unfold invoke_result
    simp [hargs, hctx, execute_kubectl_via_azure_sdk]

/-- Witness for C4: with a valid Azure context but the SDK missing, a
concrete invocation returns the structured dependency error. -/
theorem c4_executor_boundary_witness :
    invoke_result [("args", "get pods")] (some validAzureRc) SdkOutcome.importError
        (LocalOutcome.completed 0 "" "") (fun _ => (none : Option Unit))
      = .ok ⟨.error, none, some azureSdkMissingMsg, [("args", "get pods")], none⟩ :=
  (c4_executor_boundary (α := Unit)).2.2.2.2 [("args", "get pods")]
    (some validAzureRc) validAzureCtx (.completed 0 "" "")
    (fun _ => (none : Option Unit)) (by decide) (by decide)

end AKS

namespace AKS

/-- C5: result assembly. For every `CommandResult` handed back by an
executor, a non-zero exit code yields a `StructuredToolResult` with status
`error` whose message includes the exit code and the stderr text and whose
`return_code` equals the exit code; exit code `0` yields status `success`
with `data` the normalized stdout and `return_code` `0`; in both cases
`params` echoes the original invocation arguments. -/
theorem c5_result_assembly {α : Type} (params : Dict) (loads : String → Option α)
    (r : CommandResult) :
    (r.exit_code ≠ 0 →
      assemble_result params loads r
        = ⟨.error, none,
            some ("kubectl command failed (exit code " ++ toString r.exit_code
              ++ "): " ++ r.stderr),
            params, some r.exit_code⟩
      ∧ strContains ("kubectl command failed (exit code " ++ toString r.exit_code
          ++ "): " ++ r.stderr) (toString r.exit_code)
      ∧ strContains ("kubectl command failed (exit code " ++ toString r.exit_code
          ++ "): " ++ r.stderr) r.stderr)
    ∧ (r.exit_code = 0 →
      assemble_result params loads r
        = ⟨.success, some (parse_kubectl_output loads r.stdout), none,
            params, some r.exit_code⟩)
    ∧ (assemble_result params loads r).params = params := by
  refine ⟨fun h => ⟨?_, ?_, ?_⟩, fun h => ?_, ?_⟩
  · unfold assemble_result
    simp [h]
  · simp only [String.append_assoc]
    exact strContains_intro _ _ _
  · exact strContains_suffix _ _
  · unfold assemble_result
    simp [h]
  · unfold assemble_result
    by_cases h : r.exit_code ≠ 0 <;> simp [h]

/-- Witness for C5: a concrete failed command becomes a structured error
naming exit code and stderr. -/
theorem c5_result_assembly_witness :
    assemble_result [("args", "get pods")] (fun _ => (none : Option Unit)) ⟨2, "", "boom"⟩
      = ⟨.error, none, some "kubectl command failed (exit code 2): boom",
          [("args", "get pods")], some 2⟩ :=
  ((c5_result_assembly [("args", "get pods")] (fun _ => (none : Option Unit))
      ⟨2, "", "boom"⟩).1 (by decide)).1.trans (by decide)

/-- A non-falsy optional string is `some` of its default-extracted value. -/
theorem not_pyFalsy_get {o : Option String} (h : ¬(pyFalsy o = true)) :
    o = some (o.getD "") := by
  cases o with
  | none => exact absurd rfl h
  | some v => rfl

/-- C6: every successfully constructed security context carries the
validated input — `cloud` is the (lowercased, hence supported) literal,
`resource_id`/`access_token` are the request's values, the three parsed
parts come from `resource_id`, `tenant_id` is echoed — and the textual
representation is access-token-blind: any two contexts agreeing on the
displayed fields have identical representations regardless of their tokens,
the token appearing only as the fixed redaction marker. -/
theorem c6_security_context (rc : Dict) (ctx : AzureResourceContext)
    (h : get_resource_context (some rc) = .ok (some ctx)) :
    (ctx.cloud = "azure"
      ∧ rc.get "resource_id" = some ctx.resource_id
      ∧ rc.get "access_token" = some ctx.access_token
      ∧ parse_resource_id ctx.resource_id
          = some (ctx.subscription_id, ctx.resource_group, ctx.resource_name)
      ∧ rc.get "tenant_id" = ctx.tenant_id)
    ∧ (∀ c₁ c₂ : AzureResourceContext, c₁.cloud = c₂.cloud →
        c₁.subscription_id = c₂.subscription_id →
        c₁.resource_group = c₂.resource_group →
        c₁.resource_name = c₂.resource_name →
        c₁.tenant_id = c₂.tenant_id →
        c₁.reprStr = c₂.reprStr)
    ∧ strContains ctx.reprStr "access_token=***REDACTED***)" := by
  refine ⟨?_, ?_, ?_⟩
  · simp only [get_resource_context] at h
    split at h
    · simp at h
    · split at h
      · simp at h
      · next hc =>
        split at h
        · simp at h
        · next hr =>
          split at h
          · simp at h
          · next ht =>
            split at h
            · simp at h
            · next sub rg name hp =>
              simp only [Except.ok.injEq, Option.some.injEq] at h
              subst h
              rw [not_not] at hc
              exact ⟨hc, not_pyFalsy_get hr, not_pyFalsy_get ht, hp, rfl⟩
  · intro c₁ c₂ h1 h2 h3 h4 h5
    unfold AzureResourceContext.reprStr
    rw [h1, h2, h3, h4, h5]
  · unfold AzureResourceContext.reprStr
    have hsplit : (", access_token=***REDACTED***)" : String)
        = ", " ++ "access_token=***REDACTED***)" := by decide
    rw [hsplit, ← String.append_assoc]
    exact strContains_suffix _ _

end AKS

namespace AKS

/-- Witness for C6: the spec's fully valid example context extracts with
matching fields, and two contexts differing only in `access_token` print
identically. -/
theorem c6_security_context_witness :
    AzureResourceContext.reprStr
        ⟨"azure", "rid", "token-123", "sub-123", "rg-test", "cluster-test",
          some "tenant-123"⟩
      = AzureResourceContext.reprStr
        ⟨"azure", "rid", "a-completely-different-secret", "sub-123", "rg-test",
          "cluster-test", some "tenant-123"⟩ :=
  ((c6_security_context validAzureRc validAzureCtx (by decide)).2.1)
    _ _ rfl rfl rfl rfl rfl

/-- C7: output normalization. Blank stdout becomes the record holding the
empty string; stdout whose stripped form starts with a brace or bracket and
parses becomes the parsed structure; on parse failure or any other text the
record holds the raw text verbatim. The embedding is a total function — no
branch raises or reports an error. -/
theorem c7_output_normalizer {α : Type} (loads : String → Option α) (stdout : String) :
    (py_strip stdout = "" → parse_kubectl_output loads stdout = .raw "")
    ∧ (∀ v : α, py_strip stdout ≠ "" → startsWithJson stdout = true →
        loads stdout = some v → parse_kubectl_output loads stdout = .parsed v)
    ∧ (py_strip stdout ≠ "" → startsWithJson stdout = true →
        loads stdout = none → parse_kubectl_output loads stdout = .raw stdout)
    ∧ (py_strip stdout ≠ "" → startsWithJson stdout = false →
        parse_kubectl_output loads stdout = .raw stdout) := by
  have hne : py_strip stdout ≠ "" → stdout ≠ "" := fun h hh => h (by rw [hh]; rfl)
  refine ⟨fun h => ?_, fun v h hj hl => ?_, fun h hj hl => ?_, fun h hj => ?_⟩
  · unfold parse_kubectl_output
    simp [h]
  · unfold parse_kubectl_output
    simp [hne h, h, hj, hl]
  · unfold parse_kubectl_output
    simp [hne h, h, hj, hl]
  · unfold parse_kubectl_output
    simp [hne h, h, hj]

/-- Witness for C7: a concrete JSON-shaped stdout is returned parsed. -/
theorem c7_output_normalizer_witness :
    parse_kubectl_output (fun _ => some (42 : Nat)) "\x7b\"apiVersion\": \"v1\"\x7d"
      = KubectlOutput.parsed 42 :=
  (c7_output_normalizer (fun _ => some (42 : Nat)) "\x7b\"apiVersion\": \"v1\"\x7d").2.1
    42 (by decide) (by decide) rfl

/-- C8: the mutating-verb policy gate is advisory. For a non-blank command
whose first whitespace-delimited token, lowercased, is one of the mutating
verbs, `_invoke` emits exactly the warning and still returns
`invoke_result` — a computation that never consults `dangerous_commands`,
so the returned `StructuredToolResult` is the same one the command would
produce were its first token not in the set; the gate never blocks or
alters execution. -/
theorem c8_policy_gate_advisory {α : Type} (params : Dict)
    (request_context : Option Dict) (sdkOut : SdkOutcome) (localOut : LocalOutcome)
    (loads : String → Option α)
    (hargs : py_strip ((params.get "args").getD "") ≠ "")
    (hdanger : first_word (py_strip ((params.get "args").getD ""))
      ∈ dangerous_commands) :
    invoke params request_context sdkOut localOut loads
      = (invoke_result params request_context sdkOut localOut loads,
          ["Attempted to execute potentially dangerous kubectl command: "
            ++ first_word (py_strip ((params.get "args").getD ""))]) := by
  unfold invoke gate_warnings
  simp [hargs, hdanger]

/-- Witness for C8: a concrete `delete` command is dispatched normally with
the warning logged. -/
theorem c8_policy_gate_advisory_witness :
    invoke [("args", "delete pod x")] none SdkOutcome.importError
        (LocalOutcome.completed 0 "gone" "") (fun _ => (none : Option Unit))
      = (invoke_result [("args", "delete pod x")] none SdkOutcome.importError
          (LocalOutcome.completed 0 "gone" "") (fun _ => (none : Option Unit)),
         ["Attempted to execute potentially dangerous kubectl command: "
           ++ first_word (py_strip ((Dict.get [("args", "delete pod x")] "args").getD ""))]) :=
  c8_policy_gate_advisory _ _ _ _ _ (by decide) (by decide)

/-- C9: a missing, empty, or all-whitespace `args` parameter yields the
structured error naming the missing argument before any routing: the result
is the same for every request context and executor outcome. -/
theorem c9_missing_args_error {α : Type} (params : Dict)
    (request_context : Option Dict) (sdkOut : SdkOutcome) (localOut : LocalOutcome)
    (loads : String → Option α)
    (hargs : py_strip ((params.get "args").getD "") = "") :
    invoke_result params request_context sdkOut localOut loads
      = .ok ⟨.error, none, some missingArgsMsg, params, none⟩
    ∧ strContains missingArgsMsg "'args'" := by
  constructor
  · unfold invoke_result
    simp [hargs]
  · exact ⟨"Missing required parameter ",
      ". Please provide kubectl command arguments.", by decide⟩

/-- Witness for C9: a whitespace-only `args`, even alongside a request
context that would fail validation, returns the missing-argument error. -/
theorem c9_missing_args_error_witness :
    invoke_result [("args", "   ")] (some [("cloud", "azure")]) SdkOutcome.importError
        LocalOutcome.timedOut (fun _ => (none : Option Unit))
      = .ok ⟨.error, none, some missingArgsMsg, [("args", "   ")], none⟩ :=
  (c9_missing_args_error _ _ _ _ _ (by decide)).1

/-- C10: when the remote RunCommand operation completes with a result
object, the executor's `CommandResult` always carries an empty stderr —
missing `exit_code` / `logs` attributes default to `0` / `""` — so for a
non-zero reported exit code the router's assembled error message ends with
the exit code followed by an empty stderr portion. -/
theorem c10_remote_empty_stderr {α : Type} (ctx : AzureResourceContext)
    (args : String) (ec : Option Int) (logs : Option String)
    (params : Dict) (loads : String → Option α) :
    execute_kubectl_via_azure_sdk ctx args (.opCompleted ec logs)
      = .ok ⟨ec.getD 0, logs.getD "", ""⟩
    ∧ (ec.getD 0 ≠ 0 →
        assemble_result params loads ⟨ec.getD 0, logs.getD "", ""⟩
          = ⟨.error, none,
              some ("kubectl command failed (exit code " ++ toString (ec.getD 0)
                ++ "): "),
              params, some (ec.getD 0)⟩) := by
  refine ⟨rfl, fun h => ?_⟩
  unfold assemble_result
  simp [h]

/-- Witness for C10: a completed remote operation reporting exit code 7 with
no logs yields an error message with an empty stderr portion. -/
theorem c10_remote_empty_stderr_witness :
    execute_kubectl_via_azure_sdk validAzureCtx "get pods"
        (SdkOutcome.opCompleted (some 7) none)
      = .ok ⟨7, "", ""⟩
    ∧ assemble_result [] (fun _ => (none : Option Unit)) ⟨7, "", ""⟩
      = ⟨.error, none, some "kubectl command failed (exit code 7): ", [], some 7⟩ := by
  have h := c10_remote_empty_stderr (α := Unit) validAzureCtx "get pods"
    (some 7) none [] (fun _ => none)
  exact ⟨h.1.trans (by decide), (h.2 (by decide)).trans (by decide)⟩

end AKS
